import Mathlib

/-!
Verification of the OAuth2 Authorization-Code-with-PKCE authentication core
(`Auth0Manager` in `src/auth0_manager.py`) of the ticket-analytics dashboard.

The embedding models time as `Int` seconds, byte strings as `List Nat`
(values < 256, ASCII codes), the flow-state file
(`streamlit_auth_states.json`) as a map `String → Option StateData`, the
Streamlit session-state dictionary as a `Session` structure, and the SQL
`users` table as a list of rows.  Outbound HTTP calls
(`exchange_code_for_token`, `get_user_info`) and the database-sync side
effect are parameters of `handle_callback`, so that theorems quantify over
every possible provider behaviour.
-/

namespace Auth0

/-- Python truthiness of an optional string (`if not x` on `str | None`):
truthy iff present and non-empty. -/
def strTruthy : Option String → Bool
  | none => false
  | some s => s ≠ ""

/-- Python `a or b or ... or dflt` over optional strings: the first truthy
operand, else the default (taken as-is, not truthiness-checked). -/
def firstTruthy : List (Option String) → String → String
  | [], d => d
  | none :: rest, d => firstTruthy rest d
  | some s :: rest, d => if s = "" then firstTruthy rest d else s

/-- User profile claims from the provider userinfo endpoint; every field may
be absent (`sub` is checked at use sites). -/
structure UserInfo where
  sub : Option String
  email : Option String
  preferred_username : Option String
  name : Option String
  nickname : Option String
  given_name : Option String
  picture : Option String
  email_verified : Option Bool
deriving DecidableEq

/-- Fields of the token endpoint response used by the manager. -/
structure TokenResponse where
  access_token : Option String
  expires_in : Option Int
deriving DecidableEq

/-- One value of the flow-state dict: `{'code_verifier': ..., 'timestamp': ...}`;
`handle_callback` tolerates either key being absent. -/
structure StateData where
  code_verifier : Option String
  timestamp : Option Int
deriving DecidableEq

/-- The flow-state store, keyed by the `state` token. -/
abbrev StateStore := String → Option StateData

/-- Python `del states[state]`. -/
def StateStore.erase (d : StateStore) (k : String) : StateStore :=
  fun s => if s = k then none else d s

/-- Python `states[state] = data`. -/
def StateStore.insert (d : StateStore) (k : String) (v : StateData) : StateStore :=
  fun s => if s = k then some v else d s

/-- `_cleanup_expired_states`: keep only entries whose age is at most 600
seconds. (Entries written by `login` always carry a timestamp.) -/
def cleanup_expired_states (states : StateStore) (current_time : Int) : StateStore :=
  fun s =>
    match states s with
    | some d =>
      match d.timestamp with
      | some ts => if current_time - ts ≤ 600 then some d else none
      | none => none
    | none => none

/-- The Streamlit session-state fields owned by the manager. -/
structure Session where
  authenticated : Bool
  user_info : Option UserInfo
  access_token : Option String
  token_expires_at : Option Int
  auth_state : Option String
  code_verifier : Option String
deriving DecidableEq

/-- The state established by `initialize_session_state`: everything unset. -/
def Session.anonymous : Session :=
  { authenticated := false, user_info := none, access_token := none,
    token_expires_at := none, auth_state := none, code_verifier := none }

/-- `logout`: clear every session field. -/
def logout (s : Session) : Session :=
  { s with authenticated := false, user_info := none, access_token := none,
           token_expires_at := none, auth_state := none, code_verifier := none }

/-- One row of the `users` table (columns touched by the manager). -/
structure UserRecord where
  auth0_id : String
  email : String
  name : String
  picture : String
  email_verified : Bool
  created_at : Int
  last_login : Int
  role : String
  is_active : Bool
deriving DecidableEq

/-- The `users` table. -/
abbrev Db := List UserRecord

/-- `get_user_from_database`: the first row with the given `auth0_id`
(`None` when the id is `None` or no row matches). -/
def get_user_from_database (db : Db) (auth0_id : Option String) : Option UserRecord :=
  match auth0_id with
  | none => none
  | some a => db.find? (fun r => r.auth0_id = a)

/-- `email = user_info.get('email') or user_info.get('preferred_username') or ''`. -/
def resolved_email0 (user_info : UserInfo) : String :=
  firstTruthy [user_info.email, user_info.preferred_username] ""

/-- `name = name or nickname or given_name or (email.split('@')[0] if email
else 'Unknown User')`, evaluated before the e-mail synthesis. -/
def resolved_name (user_info : UserInfo) : String :=
  firstTruthy [user_info.name, user_info.nickname, user_info.given_name]
    (if resolved_email0 user_info ≠ ""
     then ((resolved_email0 user_info).splitOn "@").headD ""
     else "Unknown User")

/-- The stored e-mail: synthesized as `auth0_id + "@unknown.auth0"` when the
resolved e-mail is empty. -/
def resolved_email (user_info : UserInfo) (aid : String) : String :=
  if resolved_email0 user_info = "" then aid ++ "@unknown.auth0"
  else resolved_email0 user_info

/-- The `UPDATE` statement applied to one row: sets `email`, `name`,
`picture`, `email_verified`, `last_login`; touches rows matching `aid` only,
and never `role`, `is_active` or `created_at`. -/
def updateRow (user_info : UserInfo) (aid : String) (now : Int)
    (r : UserRecord) : UserRecord :=
  if r.auth0_id = aid then
    { r with email := resolved_email user_info aid, name := resolved_name user_info,
             picture := firstTruthy [user_info.picture] "",
             email_verified := user_info.email_verified.getD false,
             last_login := now }
  else r

/-- The `INSERT` statement's row: `role` is set to `'user'` explicitly and
`is_active` takes the schema default `1`. -/
def insertRow (user_info : UserInfo) (aid : String) (now : Int) : UserRecord :=
  { auth0_id := aid, email := resolved_email user_info aid,
    name := resolved_name user_info,
    picture := firstTruthy [user_info.picture] "",
    email_verified := user_info.email_verified.getD false,
    created_at := now, last_login := now, role := "user", is_active := true }

/-- `sync_user_to_database`.  `connectOk` models whether the SQL connection
and statements succeed; any exception is caught and the function returns
`false` with the table unchanged. -/
def sync_user_to_database (connectOk : Bool) (db : Db) (user_info : UserInfo)
    (now : Int) : Bool × Db :=
  if ¬ connectOk then (false, db)
  else
    match user_info.sub with
    | none => (false, db)
    | some aid =>
      if aid = "" then (false, db)
      else
        match db.find? (fun r => r.auth0_id = aid) with
        | some _ => (true, db.map (updateRow user_info aid now))
        | none => (true, db ++ [insertRow user_info aid now])

/-- `is_authenticated`: flag check, then lazy token-expiry check (logging out
on expiry), then the `is_active` check against the local record (logging out
when inactive).  Returns the boolean and the possibly-cleared session. -/
def is_authenticated (db : Db) (sess : Session) (now : Int) : Bool × Session :=
  if ¬ sess.authenticated then (false, sess)
  else
    let expired : Bool :=
      match sess.token_expires_at with
      | some e => now > e
      | none => false
    if expired then (false, logout sess)
    else
      match sess.user_info with
      | some ui =>
        match get_user_from_database db ui.sub with
        | some dbu => if ¬ dbu.is_active then (false, logout sess) else (true, sess)
        | none => (true, sess)
      | none => (true, sess)

/-- The fixed `role_hierarchy` table, with `.get(user_role, ['user'])`. -/
def role_hierarchy (user_role : String) : List String :=
  if user_role = "admin" then ["admin", "analyst", "user"]
  else if user_role = "analyst" then ["analyst", "user"]
  else if user_role = "user" then ["user"]
  else ["user"]

/-- `check_user_role`: requires `is_authenticated`, a profile in the session
and a local record; then membership of `required_role` in the hierarchy
expansion of the stored role. -/
def check_user_role (db : Db) (sess : Session) (now : Int) (required_role : String) :
    Bool × Session :=
  let auth := is_authenticated db sess now
  if ¬ auth.1 then (false, auth.2)
  else
    match auth.2.user_info with
    | none => (false, auth.2)
    | some ui =>
      match get_user_from_database db ui.sub with
      | none => (false, auth.2)
      | some dbu => (decide (required_role ∈ role_hierarchy dbu.role), auth.2)

/-- Outcome of the `sync_user_to_database` call inside `handle_callback`:
it may raise (the exception is caught) or return a boolean; either way the
caller ignores it. -/
inductive SyncOutcome where
  | raised
  | returned (success : Bool)
deriving DecidableEq

/-- `handle_callback`.  `exchange code verifier` models
`exchange_code_for_token` (`none` = failure), `userinfo token` models
`get_user_info` (`none` = failure), `sync` the directory-sync outcome, and
`session_lifetime` is `config.SESSION_LIFETIME`.  Returns
`((success, message), store afterwards, session afterwards)`. -/
def handle_callback (exchange : String → String → Option TokenResponse)
    (userinfo : String → Option UserInfo) (sync : UserInfo → SyncOutcome)
    (session_lifetime : Int) (store : StateStore) (sess : Session)
    (code state : String) (now : Int) :
    (Bool × String) × StateStore × Session :=
  match store state with
  | none => ((false, "Invalid or expired state parameter"), store, sess)
  | some verifier_data =>
    let code_verifier := verifier_data.code_verifier
    let expired : Bool :=
      match verifier_data.timestamp with
      | some ts => now - ts > 600
      | none => false
    if expired then
      ((false, "Authentication session expired. Please try logging in again."),
        StateStore.erase store state, sess)
    else if ¬ strTruthy code_verifier then
      ((false, "Code verifier not found"), store, sess)
    else
      match exchange code (code_verifier.getD "") with
      | none =>
        ((false, "Failed to exchange authorization code for token. Check Auth0 configuration."),
          store, sess)
      | some token_response =>
        let access_token := token_response.access_token
        if ¬ strTruthy access_token then
          ((false, "No access token in response"), store, sess)
        else
          match userinfo (access_token.getD "") with
          | none => ((false, "Failed to retrieve user info from Auth0"), store, sess)
          | some ui =>
            let _ := sync ui
            let expires_in := (token_response.expires_in).getD session_lifetime
            let sess' : Session :=
              { sess with authenticated := true, user_info := some ui,
                          access_token := access_token,
                          token_expires_at := some (now + expires_in) }
            ((true, "Authentication successful"), StateStore.erase store state, sess')

/-- `login`: prune expired entries, then record the fresh
`state → {verifier, now}` entry.  The randomly generated `state` and
`code_verifier` are parameters. -/
def login (store : StateStore) (state code_verifier : String) (now : Int) : StateStore :=
  StateStore.insert (cleanup_expired_states store now) state
    { code_verifier := some code_verifier, timestamp := some now }

/-- One character of the URL-safe base64 alphabet, as an ASCII code
(`A-Z`, `a-z`, `0-9`, `-`, `_` for the six-bit values 0..63). -/
def b64char (n : Nat) : Nat :=
  if n < 26 then 65 + n
  else if n < 52 then 97 + (n - 26)
  else if n < 62 then 48 + (n - 52)
  else if n = 62 then 45
  else 95

/-- `base64.urlsafe_b64encode` on a byte string, producing ASCII codes with
`=` (code 61) padding. -/
def b64urlEncode : List Nat → List Nat
  | b1 :: b2 :: b3 :: rest =>
    b64char (b1 / 4) :: b64char (b1 % 4 * 16 + b2 / 16) ::
      b64char (b2 % 16 * 4 + b3 / 64) :: b64char (b3 % 64) :: b64urlEncode rest
  | [b1, b2] =>
    [b64char (b1 / 4), b64char (b1 % 4 * 16 + b2 / 16), b64char (b2 % 16 * 4), 61]
  | [b1] => [b64char (b1 / 4), b64char (b1 % 4 * 16), 61, 61]
  | [] => []

/-- Python `.rstrip('=')`: drop trailing padding characters. -/
def rstripEq (l : List Nat) : List Nat :=
  (l.reverse.dropWhile (fun c => c = 61)).reverse

/-- Inverse lookup of the URL-safe base64 alphabet. -/
def b64val (c : Nat) : Nat :=
  if 65 ≤ c ∧ c ≤ 90 then c - 65
  else if 97 ≤ c ∧ c ≤ 122 then c - 97 + 26
  else if 48 ≤ c ∧ c ≤ 57 then c - 48 + 52
  else if c = 45 then 62
  else 63

/-- URL-safe base64 decoding of a padding-free string (the reference
`base64url_decode_nopad` of the spec's testable property). -/
def b64urlDecodeNopad : List Nat → List Nat
  | c1 :: c2 :: c3 :: c4 :: rest =>
    (b64val c1 * 4 + b64val c2 / 16) ::
      (b64val c2 % 16 * 16 + b64val c3 / 4) ::
      (b64val c3 % 4 * 64 + b64val c4) :: b64urlDecodeNopad rest
  | [c1, c2, c3] => [b64val c1 * 4 + b64val c2 / 16, b64val c2 % 16 * 16 + b64val c3 / 4]
  | [c1, c2] => [b64val c1 * 4 + b64val c2 / 16]
  | _ => []

/-- `generate_pkce_pair`, with the 32 random bytes from
`secrets.token_bytes(32)` and the SHA-256 digest function as parameters
(the digest maps the ASCII bytes of the verifier to its 32-byte hash).
Verifier and challenge are ASCII byte strings. -/
def generate_pkce_pair (sha256 : List Nat → List Nat) (token_bytes : List Nat) :
    List Nat × List Nat :=
  let code_verifier := rstripEq (b64urlEncode token_bytes)
  let code_challenge := rstripEq (b64urlEncode (sha256 code_verifier))
  (code_verifier, code_challenge)

/-! ### Lemmas about URL-safe base64 -/

theorem b64val_b64char : ∀ n < 64, b64val (b64char n) = n := by decide

theorem b64char_ne_61 (n : Nat) : b64char n ≠ 61 := by
  simp only [b64char]
  repeat' split
  all_goals omega

theorem rstripEq_append (p t : List Nat) (h : ∀ x ∈ p, x ≠ 61) :
    rstripEq (p ++ t) = p ++ rstripEq t := by
  unfold rstripEq
  rw [List.reverse_append, List.dropWhile_append]
  split
  · rename_i hemp
    rw [List.isEmpty_iff] at hemp
    have hself : List.dropWhile (fun c => c = 61) p.reverse = p.reverse := by
      rw [List.dropWhile_eq_self_iff]
      intro hl
      have hmem : p.reverse.get ⟨0, hl⟩ ∈ p.reverse := List.get_mem _ _ _
      have := h _ (List.mem_reverse.mp hmem)
      simpa using this
    rw [hself, hemp]
    simp
  · rw [List.reverse_append, List.reverse_reverse]

theorem rstripEq_single : rstripEq [61] = [] := rfl

theorem rstripEq_double : rstripEq [61, 61] = [] := rfl

theorem b64_roundtrip (bs : List Nat) (h : ∀ b ∈ bs, b < 256) :
    b64urlDecodeNopad (rstripEq (b64urlEncode bs)) = bs := by
  induction bs using b64urlEncode.induct with
  | case1 b1 b2 b3 rest ih =>
    have h1 : b1 < 256 := h b1 (by simp)
    have h2 : b2 < 256 := h b2 (by simp)
    have h3 : b3 < 256 := h b3 (by simp)
    have hsplit : b64urlEncode (b1 :: b2 :: b3 :: rest)
        = [b64char (b1 / 4), b64char (b1 % 4 * 16 + b2 / 16),
           b64char (b2 % 16 * 4 + b3 / 64), b64char (b3 % 64)] ++ b64urlEncode rest := rfl
    rw [hsplit, rstripEq_append _ _ (by
      intro x hx
      simp only [List.mem_cons, List.mem_singleton] at hx
      rcases hx with rfl | rfl | rfl | rfl | hx
      all_goals first
        | exact b64char_ne_61 _
        | simp at hx)]
    have e1 : b64val (b64char (b1 / 4)) = b1 / 4 := b64val_b64char _ (by omega)
    have e2 : b64val (b64char (b1 % 4 * 16 + b2 / 16)) = b1 % 4 * 16 + b2 / 16 :=
      b64val_b64char _ (by omega)
    have e3 : b64val (b64char (b2 % 16 * 4 + b3 / 64)) = b2 % 16 * 4 + b3 / 64 :=
      b64val_b64char _ (by omega)
    have e4 : b64val (b64char (b3 % 64)) = b3 % 64 := b64val_b64char _ (by omega)
    simp only [List.cons_append, List.nil_append, List.append_eq, b64urlDecodeNopad, e1, e2, e3, e4]
    rw [ih (fun b hb => h b (by simp [hb]))]
    simp only [List.cons.injEq]
    refine ⟨by omega, by omega, by omega, trivial⟩
  | case2 b1 b2 =>
    have h1 : b1 < 256 := h b1 (by simp)
    have h2 : b2 < 256 := h b2 (by simp)
    have hsplit : b64urlEncode [b1, b2]
        = [b64char (b1 / 4), b64char (b1 % 4 * 16 + b2 / 16), b64char (b2 % 16 * 4)]
          ++ [61] := rfl
    rw [hsplit, rstripEq_append _ _ (by
      intro x hx
      simp only [List.mem_cons, List.mem_singleton] at hx
      rcases hx with rfl | rfl | rfl | hx
      all_goals first
        | exact b64char_ne_61 _
        | simp at hx), rstripEq_single]
    have e1 : b64val (b64char (b1 / 4)) = b1 / 4 := b64val_b64char _ (by omega)
    have e2 : b64val (b64char (b1 % 4 * 16 + b2 / 16)) = b1 % 4 * 16 + b2 / 16 :=
      b64val_b64char _ (by omega)
    have e3 : b64val (b64char (b2 % 16 * 4)) = b2 % 16 * 4 := b64val_b64char _ (by omega)
    simp only [List.append_nil, b64urlDecodeNopad, e1, e2, e3]
    simp only [List.cons.injEq, and_true]
    exact ⟨by omega, by omega⟩
  | case3 b1 =>
    have h1 : b1 < 256 := h b1 (by simp)
    have hsplit : b64urlEncode [b1]
        = [b64char (b1 / 4), b64char (b1 % 4 * 16)] ++ [61, 61] := rfl
    rw [hsplit, rstripEq_append _ _ (by
      intro x hx
      simp only [List.mem_cons, List.mem_singleton] at hx
      rcases hx with rfl | rfl | hx
      all_goals first
        | exact b64char_ne_61 _
        | simp at hx), rstripEq_double]
    have e1 : b64val (b64char (b1 / 4)) = b1 / 4 := b64val_b64char _ (by omega)
    have e2 : b64val (b64char (b1 % 4 * 16)) = b1 % 4 * 16 := b64val_b64char _ (by omega)
    simp only [List.append_nil, b64urlDecodeNopad, e1, e2]
    simp only [List.cons.injEq, and_true]
    omega
  | case4 => rfl

theorem not_mem_61_rstripEq_encode (bs : List Nat) :
    61 ∉ rstripEq (b64urlEncode bs) := by
  induction bs using b64urlEncode.induct with
  | case1 b1 b2 b3 rest ih =>
    have hsplit : b64urlEncode (b1 :: b2 :: b3 :: rest)
        = [b64char (b1 / 4), b64char (b1 % 4 * 16 + b2 / 16),
           b64char (b2 % 16 * 4 + b3 / 64), b64char (b3 % 64)] ++ b64urlEncode rest := rfl
    rw [hsplit, rstripEq_append _ _ (by
      intro x hx
      simp only [List.mem_cons, List.mem_singleton] at hx
      rcases hx with rfl | rfl | rfl | rfl | hx
      all_goals first
        | exact b64char_ne_61 _
        | simp at hx)]
    intro hmem
    rcases List.mem_append.mp hmem with hmem | hmem
    · simp only [List.mem_cons, List.mem_singleton] at hmem
      rcases hmem with h61 | h61 | h61 | h61 | h61
      all_goals first
        | exact b64char_ne_61 _ h61.symm
        | simp at h61
    · exact ih hmem
  | case2 b1 b2 =>
    have hsplit : b64urlEncode [b1, b2]
        = [b64char (b1 / 4), b64char (b1 % 4 * 16 + b2 / 16), b64char (b2 % 16 * 4)]
          ++ [61] := rfl
    rw [hsplit, rstripEq_append _ _ (by
      intro x hx
      simp only [List.mem_cons, List.mem_singleton] at hx
      rcases hx with rfl | rfl | rfl | hx
      all_goals first
        | exact b64char_ne_61 _
        | simp at hx), rstripEq_single]
    intro hmem
    simp only [List.append_nil, List.mem_cons, List.mem_singleton] at hmem
    rcases hmem with h61 | h61 | h61 | h61
    all_goals first
      | exact b64char_ne_61 _ h61.symm
      | simp at h61
  | case3 b1 =>
    have hsplit : b64urlEncode [b1]
        = [b64char (b1 / 4), b64char (b1 % 4 * 16)] ++ [61, 61] := rfl
    rw [hsplit, rstripEq_append _ _ (by
      intro x hx
      simp only [List.mem_cons, List.mem_singleton] at hx
      rcases hx with rfl | rfl | hx
      all_goals first
        | exact b64char_ne_61 _
        | simp at hx), rstripEq_double]
    intro hmem
    simp only [List.append_nil, List.mem_cons, List.mem_singleton] at hmem
    rcases hmem with h61 | h61 | h61
    all_goals first
      | exact b64char_ne_61 _ h61.symm
      | simp at h61
  | case4 => simp [b64urlEncode, rstripEq]

/-! ### Helper: the success path of `handle_callback` -/

/-- When the state entry is present and fresh, the verifier non-empty, and
token exchange and profile fetch succeed, `handle_callback` succeeds, erases
the entry and establishes the session, whatever the sync outcome. -/
theorem callback_success_eq (exchange : String → String → Option TokenResponse)
    (userinfo : String → Option UserInfo) (sync : UserInfo → SyncOutcome)
    (session_lifetime : Int) (store : StateStore) (sess : Session)
    (code state : String) (now : Int) (v : String) (ts : Option Int)
    (tr : TokenResponse) (ui : UserInfo) (tok : String)
    (hstore : store state = some { code_verifier := some v, timestamp := ts })
    (hv : v ≠ "")
    (hfresh : ∀ t, ts = some t → now - t ≤ 600)
    (hex : exchange code v = some tr)
    (hat : tr.access_token = some tok) (htok : tok ≠ "")
    (hui : userinfo tok = some ui) :
    handle_callback exchange userinfo sync session_lifetime store sess code state now
      = ((true, "Authentication successful"), StateStore.erase store state,
         { sess with authenticated := true, user_info := some ui,
                     access_token := some tok,
                     token_expires_at := some (now + tr.expires_in.getD session_lifetime) }) := by
  rcases ts with _ | t
  · simp [handle_callback, hstore, strTruthy, hv, hex, hat, htok, hui]
  · have h600 : ¬ (now - t > 600) := by have := hfresh t rfl; omega
    simp [handle_callback, hstore, strTruthy, hv, hex, hat, htok, hui, h600]

/-! ### Witness fixtures -/

/-- A sample profile for witnesses. -/
def uiSample : UserInfo :=
  { sub := some "auth0|1", email := some "a@x.com", preferred_username := none,
    name := none, nickname := none, given_name := none, picture := none,
    email_verified := none }

/-- A sample token response for witnesses. -/
def trSample : TokenResponse := { access_token := some "tok", expires_in := some 3600 }

/-- A token exchange that always succeeds with `trSample`. -/
def exW : String → String → Option TokenResponse := fun _ _ => some trSample

/-- A profile fetch that always succeeds with `uiSample`. -/
def uinfoW : String → Option UserInfo := fun _ => some uiSample

/-- A store holding one fresh entry under the state `XYZ`. -/
def storeW : StateStore :=
  fun s => if s = "XYZ" then some { code_verifier := some "ver", timestamp := some 0 }
           else none

/-! ### Claims -/

/-- C2: for every generated PKCE pair, decoding the challenge as URL-safe
base64 without padding yields exactly the SHA-256 digest of the ASCII bytes
of the verifier, and the verifier contains no padding character. -/
theorem pkce_challenge_decodes_to_digest (sha256 : List Nat → List Nat)
    (token_bytes : List Nat)
    (hdig : ∀ b ∈ sha256 (generate_pkce_pair sha256 token_bytes).1, b < 256) :
    b64urlDecodeNopad (generate_pkce_pair sha256 token_bytes).2
      = sha256 (generate_pkce_pair sha256 token_bytes).1
    ∧ 61 ∉ (generate_pkce_pair sha256 token_bytes).1 :=
  ⟨b64_roundtrip _ hdig, not_mem_61_rstripEq_encode _⟩

/-- Witness for C2 at a concrete digest function and 32 zero random bytes. -/
theorem pkce_challenge_decodes_to_digest_witness :
    b64urlDecodeNopad (generate_pkce_pair (fun _ => List.replicate 32 7)
        (List.replicate 32 0)).2
      = (fun _ => List.replicate 32 7)
          (generate_pkce_pair (fun _ => List.replicate 32 7) (List.replicate 32 0)).1
    ∧ 61 ∉ (generate_pkce_pair (fun _ => List.replicate 32 7) (List.replicate 32 0)).1 :=
  pkce_challenge_decodes_to_digest (fun _ => List.replicate 32 7)
    (List.replicate 32 0) (by decide)

/-- C5: a callback with a state that is not in the store fails with the
invalid-state message and leaves both the store and the session untouched. -/
theorem callback_unknown_state_fails (exchange : String → String → Option TokenResponse)
    (userinfo : String → Option UserInfo) (sync : UserInfo → SyncOutcome)
    (session_lifetime : Int) (store : StateStore) (sess : Session)
    (code state : String) (now : Int) (h : store state = none) :
    handle_callback exchange userinfo sync session_lifetime store sess code state now
      = ((false, "Invalid or expired state parameter"), store, sess) := by
  unfold handle_callback
  rw [h]

/-- Witness for C5 on the empty store. -/
theorem callback_unknown_state_fails_witness :
    handle_callback exW uinfoW (fun _ => SyncOutcome.raised) 3600
        (fun _ => none) Session.anonymous "c" "s" 0
      = ((false, "Invalid or expired state parameter"), (fun _ => none),
         Session.anonymous) :=
  callback_unknown_state_fails exW uinfoW (fun _ => SyncOutcome.raised) 3600
    (fun _ => none) Session.anonymous "c" "s" 0 rfl

/-- C6: an entry written at `t0` and consumed at `t0 + 601` produces the
expired-session failure and is removed, both by `handle_callback` and by
`_cleanup_expired_states`. -/
theorem callback_expired_state_consumed (exchange : String → String → Option TokenResponse)
    (userinfo : String → Option UserInfo) (sync : UserInfo → SyncOutcome)
    (session_lifetime : Int) (store : StateStore) (sess : Session)
    (code state : String) (v : Option String) (t0 : Int)
    (h : store state = some { code_verifier := v, timestamp := some t0 }) :
    handle_callback exchange userinfo sync session_lifetime store sess code state (t0 + 601)
      = ((false, "Authentication session expired. Please try logging in again."),
         StateStore.erase store state, sess)
    ∧ StateStore.erase store state state = none
    ∧ cleanup_expired_states store (t0 + 601) state = none := by
  have h601 : t0 + 601 - t0 > 600 := by omega
  have h601b : ¬ (t0 + 601 - t0 ≤ 600) := by omega
  refine ⟨?_, ?_, ?_⟩
  · simp [handle_callback, h, h601]
  · simp [StateStore.erase]
  · simp [cleanup_expired_states, h, h601b]

/-- Witness for C6 on the fixture store (entry written at time 0, consumed
at 601). -/
theorem callback_expired_state_consumed_witness :
    handle_callback exW uinfoW (fun _ => SyncOutcome.raised) 3600
        storeW Session.anonymous "c" "XYZ" (0 + 601)
      = ((false, "Authentication session expired. Please try logging in again."),
         StateStore.erase storeW "XYZ", Session.anonymous)
    ∧ StateStore.erase storeW "XYZ" "XYZ" = none
    ∧ cleanup_expired_states storeW (0 + 601) "XYZ" = none :=
  callback_expired_state_consumed exW uinfoW (fun _ => SyncOutcome.raised) 3600
    storeW Session.anonymous "c" "XYZ" (some "ver") 0 rfl

/-- C9: when state lookup, token exchange and profile fetch all succeed,
`handle_callback` reports success and marks the session authenticated with
profile, token and expiry set, for every possible directory-sync outcome
(including a raised exception). -/
theorem callback_success_despite_sync_failure
    (exchange : String → String → Option TokenResponse)
    (userinfo : String → Option UserInfo) (sync : UserInfo → SyncOutcome)
    (session_lifetime : Int) (store : StateStore) (sess : Session)
    (code state : String) (now : Int) (v : String) (ts : Option Int)
    (tr : TokenResponse) (ui : UserInfo) (tok : String)
    (hstore : store state = some { code_verifier := some v, timestamp := ts })
    (hv : v ≠ "")
    (hfresh : ∀ t, ts = some t → now - t ≤ 600)
    (hex : exchange code v = some tr)
    (hat : tr.access_token = some tok) (htok : tok ≠ "")
    (hui : userinfo tok = some ui) :
    handle_callback exchange userinfo sync session_lifetime store sess code state now
      = ((true, "Authentication successful"), StateStore.erase store state,
         { sess with authenticated := true, user_info := some ui,
                     access_token := some tok,
                     token_expires_at := some (now + tr.expires_in.getD session_lifetime) }) :=
  callback_success_eq exchange userinfo sync session_lifetime store sess code state
    now v ts tr ui tok hstore hv hfresh hex hat htok hui

/-- Witness for C9 with a sync that raises. -/
theorem callback_success_despite_sync_failure_witness :
    handle_callback exW uinfoW (fun _ => SyncOutcome.raised) 3600
        storeW Session.anonymous "c" "XYZ" 5
      = ((true, "Authentication successful"), StateStore.erase storeW "XYZ",
         { Session.anonymous with authenticated := true, user_info := some uiSample,
                                  access_token := some "tok",
                                  token_expires_at := some (5 + trSample.expires_in.getD 3600) }) :=
  callback_success_despite_sync_failure exW uinfoW (fun _ => SyncOutcome.raised) 3600
    storeW Session.anonymous "c" "XYZ" 5 "ver" (some 0) trSample uiSample "tok"
    rfl (by decide) (fun t ht => by simp at ht; omega) rfl rfl (by decide) rfl

/-- C10: an authenticated, unexpired session whose profile has no matching
local user record is denied by `check_user_role` for every required role. -/
theorem role_check_denied_without_record (db : Db) (sess : Session) (now : Int)
    (required_role : String) (ui : UserInfo)
    (hauth : sess.authenticated = true)
    (hexp : ∀ e, sess.token_expires_at = some e → now ≤ e)
    (hui : sess.user_info = some ui)
    (hnone : get_user_from_database db ui.sub = none) :
    (check_user_role db sess now required_role).1 = false := by
  have hia : is_authenticated db sess now = (true, sess) := by
    rcases he : sess.token_expires_at with _ | e
    · simp [is_authenticated, hauth, he, hui, hnone]
    · have := hexp e he
      have hgt : ¬ (now > e) := by omega
      simp [is_authenticated, hauth, he, hui, hnone, hgt]
  simp [check_user_role, hia, hui, hnone]

/-- Witness for C10: authenticated session, empty user table. -/
theorem role_check_denied_without_record_witness :
    (check_user_role []
        { Session.anonymous with
            authenticated := true, user_info := some uiSample,
            access_token := some "tok", token_expires_at := some 100 }
        5 "user").1 = false :=
  role_check_denied_without_record [] _ 5 "user" uiSample rfl
    (fun e he => by simp at he; omega) rfl rfl

/-- C1 (amended): when the looked-up state is present in the store, the
callback removes its entry exactly when the call succeeds or reports the
expired-session failure; on the other failure outcomes (missing verifier,
failed token exchange, missing access token, failed profile fetch) the entry
is left in the store. -/
theorem callback_consumes_state_iff_success_or_expired
    (exchange : String → String → Option TokenResponse)
    (userinfo : String → Option UserInfo) (sync : UserInfo → SyncOutcome)
    (session_lifetime : Int) (store : StateStore) (sess : Session)
    (code state : String) (now : Int) (h : store state ≠ none) :
    (handle_callback exchange userinfo sync session_lifetime store sess code state now).2.1 state = none
      ↔ ((handle_callback exchange userinfo sync session_lifetime store sess code state now).1.1 = true
         ∨ (handle_callback exchange userinfo sync session_lifetime store sess code state now).1.2
             = "Authentication session expired. Please try logging in again.") := by
  rcases hst : store state with _ | ⟨cv, ts⟩
  · exact absurd hst h
  have herase : StateStore.erase store state state = none := by
    simp [StateStore.erase]
  unfold handle_callback
  rw [hst]
  rcases ts with _ | t
  · rcases cv with _ | v
    · simp [strTruthy, hst]
    · by_cases hv : v = ""
      · simp [strTruthy, hv, hst]
      · rcases hex : exchange code v with _ | tr
        · simp [strTruthy, hv, hex, hst]
        · rcases hat : tr.access_token with _ | tok
          · simp [strTruthy, hv, hex, hat, hst]
          · by_cases htok : tok = ""
            · simp [strTruthy, hv, hex, hat, htok, hst]
            · rcases hui : userinfo tok with _ | ui
              · simp [strTruthy, hv, hex, hat, htok, hui, hst]
              · simp [strTruthy, hv, hex, hat, htok, hui, herase]
  · by_cases h600 : now - t > 600
    · simp [h600, herase]
    · rcases cv with _ | v
      · simp [strTruthy, h600, hst]
      · by_cases hv : v = ""
        · simp [strTruthy, h600, hv, hst]
        · rcases hex : exchange code v with _ | tr
          · simp [strTruthy, h600, hv, hex, hst]
          · rcases hat : tr.access_token with _ | tok
            · simp [strTruthy, h600, hv, hex, hat, hst]
            · by_cases htok : tok = ""
              · simp [strTruthy, h600, hv, hex, hat, htok, hst]
              · rcases hui : userinfo tok with _ | ui
                · simp [strTruthy, h600, hv, hex, hat, htok, hui, hst]
                · simp [strTruthy, h600, hv, hex, hat, htok, hui, herase]

/-- Witness for C1 amended: on a failed token exchange the entry survives. -/
theorem callback_consumes_state_iff_witness :
    (handle_callback (fun _ _ => none) uinfoW (fun _ => SyncOutcome.raised) 3600
        storeW Session.anonymous "c" "XYZ" 5).2.1 "XYZ" = none
      ↔ ((handle_callback (fun _ _ => none) uinfoW (fun _ => SyncOutcome.raised) 3600
            storeW Session.anonymous "c" "XYZ" 5).1.1 = true
         ∨ (handle_callback (fun _ _ => none) uinfoW (fun _ => SyncOutcome.raised) 3600
              storeW Session.anonymous "c" "XYZ" 5).1.2
             = "Authentication session expired. Please try logging in again.") :=
  callback_consumes_state_iff_success_or_expired (fun _ _ => none) uinfoW
    (fun _ => SyncOutcome.raised) 3600 storeW Session.anonymous "c" "XYZ" 5
    (by decide)

/-- C1 counterexample: with the entry for `XYZ` present and fresh, a failed
token exchange returns a failure yet leaves the entry in the store, so the
same state can be looked up again. -/
theorem callback_keeps_state_on_exchange_failure :
    (handle_callback (fun _ _ => none) uinfoW (fun _ => SyncOutcome.raised) 3600
        storeW Session.anonymous "c" "XYZ" 5).1
      = (false, "Failed to exchange authorization code for token. Check Auth0 configuration.")
    ∧ (handle_callback (fun _ _ => none) uinfoW (fun _ => SyncOutcome.raised) 3600
        storeW Session.anonymous "c" "XYZ" 5).2.1 "XYZ"
      = some { code_verifier := some "ver", timestamp := some 0 } := by
  constructor
  · rfl
  · rfl

/-- C3: a session established by a successful callback at time `T` with
`expires_in = 3600` is authenticated at `T + 3599`; at `T + 3601` the check
reports `false` and clears every session field (assuming the local record,
when present, is active). -/
theorem token_expiry_boundary_after_callback
    (exchange : String → String → Option TokenResponse)
    (userinfo : String → Option UserInfo) (sync : UserInfo → SyncOutcome)
    (session_lifetime : Int) (store : StateStore) (sess sess2 : Session)
    (code state : String) (T : Int) (db : Db) (v : String) (ts : Option Int)
    (tr : TokenResponse) (ui : UserInfo) (tok : String)
    (hstore : store state = some { code_verifier := some v, timestamp := ts })
    (hv : v ≠ "")
    (hfresh : ∀ t, ts = some t → T - t ≤ 600)
    (hex : exchange code v = some tr)
    (hat : tr.access_token = some tok) (htok : tok ≠ "")
    (hexpin : tr.expires_in = some 3600)
    (hui : userinfo tok = some ui)
    (hactive : ∀ u, get_user_from_database db ui.sub = some u → u.is_active = true)
    (hsess2 : sess2 = (handle_callback exchange userinfo sync session_lifetime store
        sess code state T).2.2) :
    (is_authenticated db sess2 (T + 3599)).1 = true
    ∧ is_authenticated db sess2 (T + 3601) = (false, Session.anonymous) := by
  subst hsess2
  rw [callback_success_eq exchange userinfo sync session_lifetime store sess code state T
      v ts tr ui tok hstore hv hfresh hex hat htok hui, hexpin]
  constructor
  · have hn : ¬ (T + 3599 > T + 3600) := by omega
    rcases hdb : get_user_from_database db ui.sub with _ | u
    · simp [is_authenticated, hn, hdb]
    · have := hactive u hdb
      simp [is_authenticated, hn, hdb, this]
  · have hy : T + 3601 > T + 3600 := by omega
    simp [is_authenticated, hy, logout, Session.anonymous]

/-- Witness for C3: callback at time 5, then checks at 3604 and 3606. -/
theorem token_expiry_boundary_after_callback_witness :
    (is_authenticated []
        ((handle_callback exW uinfoW (fun _ => SyncOutcome.raised) 3600 storeW
            Session.anonymous "c" "XYZ" 5).2.2) (5 + 3599)).1 = true
    ∧ is_authenticated []
        ((handle_callback exW uinfoW (fun _ => SyncOutcome.raised) 3600 storeW
            Session.anonymous "c" "XYZ" 5).2.2) (5 + 3601)
      = (false, Session.anonymous) :=
  token_expiry_boundary_after_callback exW uinfoW (fun _ => SyncOutcome.raised) 3600
    storeW Session.anonymous _ "c" "XYZ" 5 [] "ver" (some 0) trSample uiSample "tok"
    rfl (by decide) (fun t ht => by simp at ht; omega) rfl rfl (by decide) rfl rfl
    (fun u hu => by simp [get_user_from_database, uiSample] at hu) rfl

/-- Profile fixture for C4: a `sub` but no e-mail and no preferred_username. -/
def uiNoEmail : UserInfo :=
  { sub := some "auth0|1", email := none, preferred_username := none,
    name := none, nickname := none, given_name := none, picture := none,
    email_verified := none }

/-- C4 counterexample: on a profile with only a `sub`, the stored e-mail is
`auth0|1@unknown.auth0`, not the `auth0|1@unknown` the claim states. -/
theorem sync_missing_email_counterexample :
    (sync_user_to_database true [] uiNoEmail 5).2.map (fun r => r.email)
      = ["auth0|1@unknown.auth0"]
    ∧ ¬ ((sync_user_to_database true [] uiNoEmail 5).2.map (fun r => r.email)
          = ["auth0|1" ++ "@unknown"]) := by
  constructor
  · rfl
  · decide

/-- C4 (amended): for every profile with a non-empty `sub` and both `email`
and `preferred_username` absent or empty, the upsert succeeds (the SQL
connection permitting) and stores the synthesized e-mail
`auth0_id ++ "@unknown.auth0"` for that user. -/
theorem sync_missing_email_synthesized (db : Db) (ui : UserInfo) (now : Int)
    (a : String) (hsub : ui.sub = some a) (ha : a ≠ "")
    (hemail : ui.email = none ∨ ui.email = some "")
    (hpref : ui.preferred_username = none ∨ ui.preferred_username = some "") :
    (sync_user_to_database true db ui now).1 = true
    ∧ (∃ r ∈ (sync_user_to_database true db ui now).2, r.auth0_id = a)
    ∧ ∀ r ∈ (sync_user_to_database true db ui now).2,
        r.auth0_id = a → r.email = a ++ "@unknown.auth0" := by
  have hem : resolved_email0 ui = "" := by
    rcases hemail with he | he <;> rcases hpref with hp | hp <;>
      simp [resolved_email0, firstTruthy, he, hp]
  have hre : resolved_email ui a = a ++ "@unknown.auth0" := by
    simp [resolved_email, hem]
  rcases hfind : db.find? (fun r => r.auth0_id = a) with _ | r0
  · have hs : sync_user_to_database true db ui now = (true, db ++ [insertRow ui a now]) := by
      simp [sync_user_to_database, hsub, ha, hfind]
    rw [hs]
    refine ⟨rfl, ⟨insertRow ui a now, by simp, rfl⟩, ?_⟩
    intro r hr hra
    rcases List.mem_append.mp hr with hr | hr
    · exact absurd hra (by simpa using List.find?_eq_none.mp hfind r hr)
    · rw [List.mem_singleton.mp hr]
      simp [insertRow, hre]
  · have hs : sync_user_to_database true db ui now = (true, db.map (updateRow ui a now)) := by
      simp [sync_user_to_database, hsub, ha, hfind]
    rw [hs]
    have hr0 : r0.auth0_id = a := by simpa using List.find?_some hfind
    refine ⟨rfl, ⟨updateRow ui a now r0, List.mem_map_of_mem _ (List.mem_of_find?_eq_some hfind), ?_⟩, ?_⟩
    · simp [updateRow, hr0]
    · intro r hr hra
      rcases List.mem_map.mp hr with ⟨r1, hr1, rfl⟩
      by_cases h1 : r1.auth0_id = a
      · simp [updateRow, h1, hre]
      · exact absurd hra (by simp [updateRow, h1])

/-- Witness for C4 amended on the `uiNoEmail` fixture over the empty table. -/
theorem sync_missing_email_synthesized_witness :
    (sync_user_to_database true [] uiNoEmail 5).1 = true
    ∧ (∃ r ∈ (sync_user_to_database true [] uiNoEmail 5).2, r.auth0_id = "auth0|1")
    ∧ ∀ r ∈ (sync_user_to_database true [] uiNoEmail 5).2,
        r.auth0_id = "auth0|1" → r.email = "auth0|1" ++ "@unknown.auth0" :=
  sync_missing_email_synthesized [] uiNoEmail 5 "auth0|1" rfl (by decide)
    (Or.inl rfl) (Or.inl rfl)

/-- C7: two upserts for the same fresh `sub`, the second with a different
e-mail, leave exactly one record for that `sub`: e-mail updated, `role` and
`is_active` as the insert set them (`'user'`, active), untouched by the
second call. -/
theorem sync_upsert_twice_single_record (db db1 db2 : Db) (b1 b2 : Bool)
    (a e1 e2 : String) (t1 t2 : Int) (ui1 ui2 : UserInfo)
    (hfreshdb : ∀ r ∈ db, r.auth0_id ≠ a) (ha : a ≠ "")
    (h1sub : ui1.sub = some a) (h1e : ui1.email = some e1) (he1 : e1 ≠ "")
    (h2sub : ui2.sub = some a) (h2e : ui2.email = some e2) (he2 : e2 ≠ "")
    (hs1 : sync_user_to_database true db ui1 t1 = (b1, db1))
    (hs2 : sync_user_to_database true db1 ui2 t2 = (b2, db2)) :
    b1 = true ∧ b2 = true
    ∧ (db2.filter (fun r => r.auth0_id = a)).length = 1
    ∧ (∀ r ∈ db2, r.auth0_id = a → r.email = e2 ∧ r.role = "user" ∧ r.is_active = true)
    ∧ (∀ r ∈ db1, r.auth0_id = a → r.role = "user" ∧ r.is_active = true) := by
  have hfind1 : db.find? (fun r => r.auth0_id = a) = none :=
    List.find?_eq_none.mpr (fun r hr => by simpa using hfreshdb r hr)
  have he2' : resolved_email ui2 a = e2 := by
    simp [resolved_email, resolved_email0, firstTruthy, h2e, he2]
  have heq1 : sync_user_to_database true db ui1 t1 = (true, db ++ [insertRow ui1 a t1]) := by
    simp [sync_user_to_database, h1sub, ha, hfind1]
  rw [heq1] at hs1
  injection hs1 with hb1 hdb1
  subst hb1
  subst hdb1
  have hfind2 : (db ++ [insertRow ui1 a t1]).find? (fun r => r.auth0_id = a)
      = some (insertRow ui1 a t1) := by
    rw [List.find?_append, hfind1]
    simp [insertRow]
  have heq2 : sync_user_to_database true (db ++ [insertRow ui1 a t1]) ui2 t2
      = (true, (db ++ [insertRow ui1 a t1]).map (updateRow ui2 a t2)) := by
    simp [sync_user_to_database, h2sub, ha, hfind2]
  rw [heq2] at hs2
  injection hs2 with hb2 hdb2
  subst hb2
  subst hdb2
  have hmapid : db.map (updateRow ui2 a t2) = db := by
    rw [show db.map (updateRow ui2 a t2) = db.map id from
      List.map_congr_left (fun r hr => by simp [updateRow, hfreshdb r hr]), List.map_id]
  rw [List.map_append, hmapid]
  refine ⟨rfl, rfl, ?_, ?_, ?_⟩
  · rw [List.filter_append]
    have h1 : db.filter (fun r => decide (r.auth0_id = a)) = [] :=
      List.filter_eq_nil_iff.mpr (fun r hr => by simpa using hfreshdb r hr)
    rw [h1]
    simp [updateRow, insertRow]
  · intro r hr hra
    rcases List.mem_append.mp hr with hr | hr
    · exact absurd hra (hfreshdb r hr)
    · rw [List.mem_singleton.mp hr]
      refine ⟨?_, ?_, ?_⟩ <;> simp [updateRow, insertRow, he2']
  · intro r hr hra
    rcases List.mem_append.mp hr with hr | hr
    · exact absurd hra (hfreshdb r hr)
    · rw [List.mem_singleton.mp hr]
      exact ⟨rfl, rfl⟩

/-- Witness for C7: two syncs of the same `sub` with different e-mails over
the empty table. -/
theorem sync_upsert_twice_single_record_witness :
    (true : Bool) = true ∧ (true : Bool) = true
    ∧ (((sync_user_to_database true
          (sync_user_to_database true [] uiSample 1).2
          { uiSample with email := some "b@y.com" } 2).2).filter
        (fun r => r.auth0_id = "auth0|1")).length = 1
    ∧ (∀ r ∈ (sync_user_to_database true
          (sync_user_to_database true [] uiSample 1).2
          { uiSample with email := some "b@y.com" } 2).2,
        r.auth0_id = "auth0|1" → r.email = "b@y.com" ∧ r.role = "user" ∧ r.is_active = true)
    ∧ (∀ r ∈ (sync_user_to_database true [] uiSample 1).2,
        r.auth0_id = "auth0|1" → r.role = "user" ∧ r.is_active = true) :=
  sync_upsert_twice_single_record [] _ _ _ _ "auth0|1" "a@x.com" "b@y.com" 1 2
    uiSample { uiSample with email := some "b@y.com" }
    (fun r hr => absurd hr (List.not_mem_nil r)) (by decide)
    rfl rfl (by decide) rfl rfl (by decide)
    (Prod.mk.eta).symm (Prod.mk.eta).symm

/-- A stored user record fixture. -/
def recW (role : String) : UserRecord :=
  { auth0_id := "auth0|1", email := "a@x.com", name := "A", picture := "",
    email_verified := true, created_at := 0, last_login := 0, role := role,
    is_active := true }

/-- An authenticated session fixture holding `uiSample`. -/
def sessW : Session :=
  { authenticated := true, user_info := some uiSample,
    access_token := some "tok", token_expires_at := some 100,
    auth_state := none, code_verifier := none }

/-- C8: for an authenticated user, a stored role `user` does not pass an
`admin` check; a stored role `admin` passes a `user` check; any role outside
the table behaves exactly as `user` (only the `user` requirement passes). -/
theorem role_hierarchy_checks (db : Db) (sess : Session) (now : Int)
    (ui : UserInfo) (dbu : UserRecord)
    (hauth : sess.authenticated = true)
    (hexp : ∀ e, sess.token_expires_at = some e → now ≤ e)
    (hui : sess.user_info = some ui)
    (hdbu : get_user_from_database db ui.sub = some dbu)
    (hact : dbu.is_active = true) :
    (dbu.role = "user" → (check_user_role db sess now "admin").1 = false)
    ∧ (dbu.role = "admin" → (check_user_role db sess now "user").1 = true)
    ∧ (dbu.role ≠ "admin" → dbu.role ≠ "analyst" → dbu.role ≠ "user" →
        ∀ required_role, ((check_user_role db sess now required_role).1 = true
          ↔ required_role = "user")) := by
  have hia : is_authenticated db sess now = (true, sess) := by
    rcases he : sess.token_expires_at with _ | e
    · simp [is_authenticated, hauth, he, hui, hdbu, hact]
    · have := hexp e he
      have hgt : ¬ (now > e) := by omega
      simp [is_authenticated, hauth, he, hui, hdbu, hact, hgt]
  refine ⟨?_, ?_, ?_⟩
  · intro hrole
    simp [check_user_role, hia, hui, hdbu, role_hierarchy, hrole]
  · intro hrole
    simp [check_user_role, hia, hui, hdbu, role_hierarchy, hrole]
  · intro h1 h2 h3 required_role
    simp [check_user_role, hia, hui, hdbu, role_hierarchy, h1, h2, h3]

/-- Witness for C8 with a stored role outside the table (`guest`). -/
theorem role_hierarchy_checks_witness :
    ((recW "guest").role = "user" → (check_user_role [recW "guest"] sessW 5 "admin").1 = false)
    ∧ ((recW "guest").role = "admin" → (check_user_role [recW "guest"] sessW 5 "user").1 = true)
    ∧ ((recW "guest").role ≠ "admin" → (recW "guest").role ≠ "analyst" →
        (recW "guest").role ≠ "user" →
        ∀ required_role, ((check_user_role [recW "guest"] sessW 5 required_role).1 = true
          ↔ required_role = "user")) :=
  role_hierarchy_checks [recW "guest"] sessW 5 uiSample (recW "guest") rfl
    (fun e he => by simp [sessW] at he; omega) rfl rfl rfl

end Auth0
